import Mathlib

/-!
Verification of the `simple-root-bot` ActiveSkillRouter
(`samples/python/80.skills-simple-bot-to-bot/simple-root-bot/bots/root_bot.py`).

The Python handler is embedded shallowly: each handler becomes a pure
function from the persisted conversation state and the incoming activity to
a trace of observable effects (state saves, skill-transport calls, outbound
replies) together with either the updated conversation state or a raised
Python exception.
-/

/-- Python substring prefix test on character lists (`needle.isPrefixOf hay`),
hand-rolled so the development is self-contained. -/
def strPre : List Char → List Char → Bool
  | [], _ => true
  | _ :: _, [] => false
  | a :: as, b :: bs => a == b && strPre as bs

/-- `hasSub needle hay`: `needle` occurs as a contiguous run inside `hay`. -/
def hasSub : List Char → List Char → Bool
  | needle, [] => needle.isEmpty
  | needle, c :: t => strPre needle (c :: t) || hasSub needle t

/-- Python string membership `needle in hay`: plain case-sensitive substring test. -/
def strIn (needle hay : String) : Bool :=
  hasSub needle.data hay.data

/-- Python `str()` of an `Optional[str]`: `None` renders as the text `"None"`. -/
def pyStrOpt : Option String → String
  | none => "None"
  | some s => s

/-- Python truthiness of an `Optional[str]`: `None` and the empty string are falsy. -/
def pyTruthy : Option String → Bool
  | none => false
  | some s => !(s == "")

/-- Schema constant from `botbuilder.schema.ActivityTypes` (external SDK):
the wire value of the `message` activity type. -/
def ActivityTypes.message : String := "message"

/-- Schema constant: the wire value of the `endOfConversation` activity type. -/
def ActivityTypes.end_of_conversation : String := "endOfConversation"

/-- Schema constant: the wire value of the `conversationUpdate` activity type. -/
def ActivityTypes.conversation_update : String := "conversationUpdate"

/-- `botbuilder.schema.ChannelAccount`: only the `id` field is read by this bot. -/
structure ChannelAccount where
  id : String
deriving DecidableEq, Repr

/-- The fields of `botbuilder.schema.Activity` that `root_bot.py` reads.
`value` is `Optional[Any]` in the schema; it is modelled by its Python
`str()` rendering. `members_added` being absent is modelled as `[]`. -/
structure Activity where
  type : String
  text : Option String
  code : Option String
  value : Option String
  recipient : ChannelAccount
  members_added : List ChannelAccount
deriving DecidableEq, Repr

/-- `botbuilder.core.skills.BotFrameworkSkill`: static descriptor of one skill. -/
structure BotFrameworkSkill where
  id : String
  app_id : String
  skill_endpoint : String
deriving DecidableEq, Repr

/-- `config.SkillConfiguration`: the skill dictionary (`SKILLS[skill_id]`,
a lookup that may raise `KeyError`, hence `Option`) and the host endpoint. -/
structure SkillConfiguration where
  SKILLS : String → Option BotFrameworkSkill
  SKILL_HOST_ENDPOINT : String

/-- The per-conversation persisted record: the one state-accessor property
`activeSkillProperty` the bot creates, holding an optional skill id. -/
structure ConvState where
  activeSkillId : Option String
deriving DecidableEq, Repr

/-- Constant from `root_bot.py`: the name under which the property is registered. -/
def ACTIVE_SKILL_PROPERTY_NAME : String := "activeSkillProperty"

/-- Constant from `root_bot.py`: the id of the one target skill. -/
def TARGET_SKILL_ID : String := "EchoSkillBot"

/-- The `RootBot` object fields that the handlers read
(`_bot_id` and `_skills_config`; the clients show up only as trace events). -/
structure RootBot where
  bot_id : String
  skills_config : SkillConfiguration

/-- Observable effects of one turn, in the order they are performed:
conversation-state saves, skill-transport posts, and outbound replies. -/
inductive Event where
  | saveChanges (force : Bool)
  | postActivity (from_bot_id : String) (to_skill : BotFrameworkSkill)
      (service_url : String) (activity : Activity)
  | sendActivity (text : String)
deriving DecidableEq, Repr

/-- A turn either completes with an updated conversation state or raises a
Python exception carrying a message. -/
inductive PyResult (α : Type) where
  | ok (a : α)
  | raised (msg : String)
deriving DecidableEq, Repr

/-- `RootBot.__send_to_skill`: save conversation state (force) and then post
the activity to the target skill. The conversation state is not changed. -/
def sendToSkill (bot : RootBot) (activity : Activity)
    (target_skill : BotFrameworkSkill) : List Event :=
  [Event.saveChanges true,
   Event.postActivity bot.bot_id target_skill
     bot.skills_config.SKILL_HOST_ENDPOINT activity]

/-- `RootBot.on_message_activity`. Python evaluates
`"skill" in turn_context.activity.text`; when `text` is `None` this raises
`TypeError` before any reply is sent. On a keyword match it replies with the
acknowledgment, stores the target skill id, and forwards to the skill
(`SKILLS[TARGET_SKILL_ID]` may raise `KeyError`); otherwise it sends the
static help reply. -/
def on_message_activity (bot : RootBot) (s : ConvState) (a : Activity) :
    List Event × PyResult ConvState :=
  match a.text with
  | none => ([], PyResult.raised "TypeError: argument of type NoneType is not iterable")
  | some t =>
    if strIn "skill" t then
      let acked := [Event.sendActivity "Got it, connecting you to the skill..."]
      let s1 : ConvState := { activeSkillId := some TARGET_SKILL_ID }
      match bot.skills_config.SKILLS TARGET_SKILL_ID with
      | none => (acked, PyResult.raised "KeyError")
      | some sk => (acked ++ sendToSkill bot a sk, PyResult.ok s1)
    else
      ([Event.sendActivity "Me no nothin'. Say \"skill\" and I'll patch you through"],
       PyResult.ok s)

/-- The f-string summary built by `RootBot.on_end_of_conversation_activity`:
the `Code:` segment is unconditional (rendering `None` when absent), while the
`Text:` and `Value:` segments are appended only when the field is truthy. -/
def eoc_activity_message (a : Activity) : String :=
  let m0 := "Received " ++ ActivityTypes.end_of_conversation ++ ".\n\nCode: "
    ++ pyStrOpt a.code
  let m1 := if pyTruthy a.text then m0 ++ "\n\nText: " ++ pyStrOpt a.text else m0
  if pyTruthy a.value then m1 ++ "\n\nValue: " ++ pyStrOpt a.value else m1

/-- `RootBot.on_end_of_conversation_activity`: delete the active-skill
property, send the summary, send the static prompt, and force-save state. -/
def on_end_of_conversation_activity (a : Activity) :
    List Event × PyResult ConvState :=
  ([Event.sendActivity (eoc_activity_message a),
    Event.sendActivity "Back in the root bot. Say \"skill\" and I'll patch you through",
    Event.saveChanges true],
   PyResult.ok { activeSkillId := none })

/-- The loop body of `RootBot.on_members_added_activity`: one static welcome
per added member whose id differs from the activity recipient id. -/
def welcome_events : List ChannelAccount → String → List Event
  | [], _ => []
  | m :: rest, rid =>
    (if m.id != rid then [Event.sendActivity "Hello and welcome!"] else [])
      ++ welcome_events rest rid

/-- `RootBot.on_members_added_activity`: greet each added member except the
bot itself (the activity recipient); state is untouched. -/
def on_members_added_activity (s : ConvState)
    (members_added : List ChannelAccount) (a : Activity) :
    List Event × PyResult ConvState :=
  (welcome_events members_added a.recipient.id, PyResult.ok s)

/-- Modelled from the spec: the SDK `ActivityHandler.on_turn` base class is
not part of this repository; per the spec it dispatches to the type-specific
handlers (message, members-added via a non-empty conversation update,
end-of-conversation); activities of other types are handled as no-ops. -/
def activity_handler_on_turn (bot : RootBot) (s : ConvState) (a : Activity) :
    List Event × PyResult ConvState :=
  if a.type == ActivityTypes.message then
    on_message_activity bot s a
  else if a.type == ActivityTypes.end_of_conversation then
    on_end_of_conversation_activity a
  else if a.type == ActivityTypes.conversation_update then
    if a.members_added.isEmpty then ([], PyResult.ok s)
    else on_members_added_activity s a.members_added a
  else ([], PyResult.ok s)

/-- `RootBot.on_turn`: for a non-EndOfConversation activity with a truthy
stored skill id, look the skill up (`SKILLS[active_skill_id]`, `KeyError`
when missing) and forward the activity to it, doing nothing else; otherwise
fall through to the base-class dispatch. -/
def on_turn (bot : RootBot) (s : ConvState) (a : Activity) :
    List Event × PyResult ConvState :=
  if a.type != ActivityTypes.end_of_conversation then
    match s.activeSkillId with
    | some id =>
      if id == "" then activity_handler_on_turn bot s a
      else
        match bot.skills_config.SKILLS id with
        | none => ([], PyResult.raised "KeyError")
        | some sk => (sendToSkill bot a sk, PyResult.ok s)
    | none => activity_handler_on_turn bot s a
  else activity_handler_on_turn bot s a

/-- Conversation states reachable from the initial (absent-flag) state by
completed turns. -/
inductive Reachable (bot : RootBot) : ConvState → Prop
  | init : Reachable bot { activeSkillId := none }
  | step (s s' : ConvState) (a : Activity) : Reachable bot s →
      (on_turn bot s a).2 = PyResult.ok s' → Reachable bot s'

/-! ## Spec-side definitions for refinement comparison -/

/-- The summary composition as the spec words it for claim C2: include each
of the `code`, `text`, `value` fields only if present; an absent field
contributes no segment. -/
def spec_summary (a : Activity) : String :=
  "Received " ++ ActivityTypes.end_of_conversation ++ "."
  ++ (match a.code with | some c => "\n\nCode: " ++ c | none => "")
  ++ (match a.text with | some t => "\n\nText: " ++ t | none => "")
  ++ (match a.value with | some v => "\n\nValue: " ++ v | none => "")

/-- The summary composition as amended: the `Code:` segment is always
present, rendering `None` when `code` is absent; the `Text:` and `Value:`
segments appear exactly when the field is truthy (present and non-empty). -/
def amended_summary (a : Activity) : String :=
  ("Received " ++ ActivityTypes.end_of_conversation ++ ".\n\nCode: " ++ pyStrOpt a.code)
  ++ (if pyTruthy a.text then "\n\nText: " ++ pyStrOpt a.text else "")
  ++ (if pyTruthy a.value then "\n\nValue: " ++ pyStrOpt a.value else "")

/-- An EndOfConversation activity carrying no code, text or value. -/
def eocBare : Activity :=
  { type := ActivityTypes.end_of_conversation, text := none, code := none,
    value := none, recipient := { id := "" }, members_added := [] }

/-- The EndOfConversation activity of the spec scenario for claim C7:
`code="success"`, `text="done"`. -/
def eocSuccessDone : Activity :=
  { type := ActivityTypes.end_of_conversation, text := some "done",
    code := some "success", value := none, recipient := { id := "" },
    members_added := [] }

/-! ## Trace predicates -/

/-- `posts_after_save seen evs = true` iff every skill-transport post in
`evs` is preceded by a forced state save (`seen` records whether one has
already happened). -/
def posts_after_save : Bool → List Event → Bool
  | _, [] => true
  | _, Event.saveChanges true :: rest => posts_after_save true rest
  | seen, Event.saveChanges false :: rest => posts_after_save seen rest
  | seen, Event.postActivity _ _ _ _ :: rest => seen && posts_after_save seen rest
  | seen, Event.sendActivity _ :: rest => posts_after_save seen rest

/-- Whether an event is a skill-transport invocation. -/
def isPost : Event → Bool
  | Event.postActivity _ _ _ _ => true
  | _ => false

/-! ## Helper lemmas -/

theorem welcome_events_eq (l : List ChannelAccount) (rid : String) :
    welcome_events l rid =
      (l.filter fun m => !(m.id == rid)).map
        fun _ => Event.sendActivity "Hello and welcome!" := by
  induction l with
  | nil => rfl
  | cons m rest ih =>
    cases h : m.id == rid <;>
      simp [welcome_events, List.filter_cons, h, ih, bne]

theorem posts_after_save_welcome (b : Bool) (l : List ChannelAccount)
    (rid : String) : posts_after_save b (welcome_events l rid) = true := by
  induction l with
  | nil => rfl
  | cons m rest ih =>
    cases h : m.id == rid <;> simp [welcome_events, h, bne, posts_after_save, ih]

theorem posts_after_save_message (bot : RootBot) (s : ConvState)
    (a : Activity) :
    posts_after_save false (on_message_activity bot s a).1 = true := by
  unfold on_message_activity
  cases a.text with
  | none => rfl
  | some t =>
    simp only
    split
    · cases bot.skills_config.SKILLS TARGET_SKILL_ID <;>
        simp [sendToSkill, posts_after_save]
    · simp [posts_after_save]

theorem posts_after_save_handler (bot : RootBot) (s : ConvState)
    (a : Activity) :
    posts_after_save false (activity_handler_on_turn bot s a).1 = true := by
  unfold activity_handler_on_turn
  split
  · exact posts_after_save_message bot s a
  · split
    · simp [on_end_of_conversation_activity, posts_after_save]
    · split
      · split
        · rfl
        · simp [on_members_added_activity, posts_after_save_welcome]
      · rfl

/-! ## Concrete sample objects used by witnesses -/

/-- A concrete descriptor for the one target skill. -/
def sampleSkill : BotFrameworkSkill :=
  { id := "EchoSkillBot", app_id := "skillAppId",
    skill_endpoint := "http://localhost:39783/api/messages" }

/-- A concrete configuration registering exactly the target skill. -/
def sampleConfig : SkillConfiguration :=
  { SKILLS := fun id => if id == TARGET_SKILL_ID then some sampleSkill else none,
    SKILL_HOST_ENDPOINT := "http://localhost:3978/api/skills" }

/-- A concrete root bot over `sampleConfig`. -/
def sampleBot : RootBot :=
  { bot_id := "rootBotAppId", skills_config := sampleConfig }

/-- A message activity whose `text` field is absent. -/
def msgNoText : Activity :=
  { type := ActivityTypes.message, text := none, code := none, value := none,
    recipient := { id := "bot" }, members_added := [] }

/-- The message activity of the spec scenario for claim C3. -/
def msgTrySkill : Activity :=
  { type := ActivityTypes.message, text := some "let's try the skill",
    code := none, value := none, recipient := { id := "bot" },
    members_added := [] }

/-! ## Claim theorems -/

/-- C2 counterexample: on an EndOfConversation activity with all of `code`,
`text`, `value` absent, the summary nevertheless contains a `Code:` segment
(`Code: None`), so an absent `code` field does contribute a line, and the
summary differs from the spec-worded composition that omits absent fields. -/
theorem C2_counterexample :
    eocBare.code = none ∧
    strIn "Code:" (eoc_activity_message eocBare) = true ∧
    eoc_activity_message eocBare ≠ spec_summary eocBare := by
  decide

/-- C2 (amended): the summary includes the `text` and `value` fields exactly
when the field is truthy (present and non-empty), but the `Code:` segment is
always included, rendering `None` when `code` is absent. -/
theorem C2_summary_amended (a : Activity) :
    eoc_activity_message a = amended_summary a := by
  unfold eoc_activity_message amended_summary
  cases h1 : pyTruthy a.text <;> cases h2 : pyTruthy a.value <;>
    simp [h1, h2, String.append_empty, String.append_assoc]

/-- C4: in `__send_to_skill` the forced conversation-state save is the first
event and the transport post the second; moreover on every complete turn of
the bot, no transport post ever occurs before a forced state save. -/
theorem C4_save_before_transport (bot : RootBot) (a : Activity) :
    (∀ sk, sendToSkill bot a sk =
      [Event.saveChanges true,
       Event.postActivity bot.bot_id sk bot.skills_config.SKILL_HOST_ENDPOINT a])
    ∧ (∀ s, posts_after_save false (on_turn bot s a).1 = true) := by
  refine ⟨fun sk => rfl, fun s => ?_⟩
  unfold on_turn
  split
  · cases h : s.activeSkillId with
    | none => exact posts_after_save_handler bot s a
    | some id =>
      simp only
      split
      · exact posts_after_save_handler bot s a
      · cases hsk : bot.skills_config.SKILLS id <;>
          simp [sendToSkill, posts_after_save]
  · exact posts_after_save_handler bot s a

/-- C7: the spec scenario — an EndOfConversation with `code="success"`,
`text="done"` yields the summary reply (containing `Code: success` and
`Text: done`), then the static back-in-root-bot reply, then a forced state
save, and leaves `activeSkillId` cleared, from any prior state. -/
theorem C7_eoc_success_done_scenario (bot : RootBot) (s : ConvState) :
    on_turn bot s eocSuccessDone =
      ([Event.sendActivity "Received endOfConversation.\n\nCode: success\n\nText: done",
        Event.sendActivity "Back in the root bot. Say \"skill\" and I'll patch you through",
        Event.saveChanges true],
       PyResult.ok { activeSkillId := none })
    ∧ strIn "Code: success" (eoc_activity_message eocSuccessDone) = true
    ∧ strIn "Text: done" (eoc_activity_message eocSuccessDone) = true := by
  refine ⟨rfl, by decide, by decide⟩

/-- C8: members-added handling sends exactly one static welcome per added
member whose id differs from the activity recipient id — in particular none
for a member whose id equals the recipient id — and leaves state unchanged. -/
theorem C8_members_added (s : ConvState) (members : List ChannelAccount)
    (a : Activity) :
    on_members_added_activity s members a =
      ((members.filter fun m => !(m.id == a.recipient.id)).map
          fun _ => Event.sendActivity "Hello and welcome!",
       PyResult.ok s) := by
  simp [on_members_added_activity, welcome_events_eq]

/-- C9: a message activity with absent `text`, processed while Idle, raises
a `TypeError` from the unguarded substring test before any reply: the help
reply is never sent. -/
theorem C9_none_text_raises (bot : RootBot) (s : ConvState) (a : Activity)
    (h1 : s.activeSkillId = none) (h2 : a.type = ActivityTypes.message)
    (h3 : a.text = none) :
    on_turn bot s a =
      ([], PyResult.raised "TypeError: argument of type NoneType is not iterable") := by
  simp [on_turn, h1, h2, h3, activity_handler_on_turn, on_message_activity,
    ActivityTypes.message, ActivityTypes.end_of_conversation]

/-- C9 witness: the preceding theorem applied at a concrete Idle state and a
concrete text-less message. -/
theorem C9_witness :
    on_turn sampleBot { activeSkillId := none } msgNoText =
      ([], PyResult.raised "TypeError: argument of type NoneType is not iterable") :=
  C9_none_text_raises sampleBot { activeSkillId := none } msgNoText rfl rfl rfl

/-! ## Turn-level helper lemmas -/

theorem on_turn_eoc_eq (bot : RootBot) (s : ConvState) (a : Activity)
    (h : a.type = ActivityTypes.end_of_conversation) :
    on_turn bot s a = on_end_of_conversation_activity a := by
  simp [on_turn, activity_handler_on_turn, h,
    ActivityTypes.end_of_conversation, ActivityTypes.message]

theorem on_turn_forward_eq (bot : RootBot) (s : ConvState) (a : Activity)
    (id : String) (sk : BotFrameworkSkill)
    (hty : a.type ≠ ActivityTypes.end_of_conversation)
    (hid : s.activeSkillId = some id) (hne : id ≠ "")
    (hsk : bot.skills_config.SKILLS id = some sk) :
    on_turn bot s a = (sendToSkill bot a sk, PyResult.ok s) := by
  simp [on_turn, hty, hid, hne, hsk]

theorem handler_state_cases (bot : RootBot) (s s' : ConvState) (a : Activity)
    (hok : (activity_handler_on_turn bot s a).2 = PyResult.ok s') :
    s' = s ∨ s' = { activeSkillId := none } ∨
      s' = { activeSkillId := some TARGET_SKILL_ID } := by
  unfold activity_handler_on_turn at hok
  split at hok
  · unfold on_message_activity at hok
    cases htext : a.text with
    | none => rw [htext] at hok; simp at hok
    | some t =>
      rw [htext] at hok
      simp only at hok
      split at hok
      · cases hsk : bot.skills_config.SKILLS TARGET_SKILL_ID with
        | none => rw [hsk] at hok; simp at hok
        | some sk =>
          rw [hsk] at hok
          simp at hok
          exact Or.inr (Or.inr hok.symm)
      · simp at hok
        exact Or.inl hok.symm
  · split at hok
    · simp [on_end_of_conversation_activity] at hok
      exact Or.inr (Or.inl hok.symm)
    · split at hok
      · split at hok
        · simp at hok
          exact Or.inl hok.symm
        · simp [on_members_added_activity] at hok
          exact Or.inl hok.symm
      · simp at hok
        exact Or.inl hok.symm

theorem on_turn_state_cases (bot : RootBot) (s s' : ConvState) (a : Activity)
    (hok : (on_turn bot s a).2 = PyResult.ok s') :
    s' = s ∨ s' = { activeSkillId := none } ∨
      s' = { activeSkillId := some TARGET_SKILL_ID } := by
  unfold on_turn at hok
  split at hok
  · cases hid : s.activeSkillId with
    | none =>
      rw [hid] at hok
      exact handler_state_cases bot s s' a hok
    | some id =>
      rw [hid] at hok
      simp only at hok
      split at hok
      · exact handler_state_cases bot s s' a hok
      · cases hsk : bot.skills_config.SKILLS id with
        | none => rw [hsk] at hok; simp at hok
        | some sk =>
          rw [hsk] at hok
          simp at hok
          exact Or.inl hok.symm
  · exact handler_state_cases bot s s' a hok

/-- C1: for a non-EndOfConversation activity, a truthy stored skill id makes
the turn forward the activity unchanged to the skill registered under that
id — the trace is exactly the forced save and the transport post, with no
reply and no state change — while an absent id falls through to the
type-specific base dispatch. -/
theorem C1_active_skill_routing (bot : RootBot) (s : ConvState) (a : Activity)
    (hty : a.type ≠ ActivityTypes.end_of_conversation) :
    (∀ id sk, s.activeSkillId = some id → id ≠ "" →
       bot.skills_config.SKILLS id = some sk →
       on_turn bot s a =
         ([Event.saveChanges true,
           Event.postActivity bot.bot_id sk
             bot.skills_config.SKILL_HOST_ENDPOINT a],
          PyResult.ok s))
    ∧ (s.activeSkillId = none →
       on_turn bot s a = activity_handler_on_turn bot s a) := by
  constructor
  · intro id sk hid hne hsk
    exact on_turn_forward_eq bot s a id sk hty hid hne hsk
  · intro hid
    simp [on_turn, hty, hid]

/-- C1 witness: the routing theorem applied to a concrete message while the
concrete bot has `EchoSkillBot` active; the turn is exactly save-then-post
of that same message. -/
theorem C1_witness :
    on_turn sampleBot { activeSkillId := some "EchoSkillBot" } msgTrySkill =
      ([Event.saveChanges true,
        Event.postActivity sampleBot.bot_id sampleSkill
          sampleBot.skills_config.SKILL_HOST_ENDPOINT msgTrySkill],
       PyResult.ok { activeSkillId := some "EchoSkillBot" }) :=
  (C1_active_skill_routing sampleBot { activeSkillId := some "EchoSkillBot" }
      msgTrySkill (by decide)).1
    "EchoSkillBot" sampleSkill rfl (by decide) (by decide)

/-- C3: a message processed while Idle with the target skill configured:
when the text contains the substring `skill`, the bot replies with the
acknowledgment, stores `EchoSkillBot` as the active skill, and invokes the
skill transport exactly once; otherwise it sends the static help reply and
the state is unchanged (skill id still absent). -/
theorem C3_message_while_idle (bot : RootBot) (s : ConvState) (a : Activity)
    (t : String) (sk : BotFrameworkSkill)
    (h1 : s.activeSkillId = none) (h2 : a.type = ActivityTypes.message)
    (h3 : a.text = some t)
    (hsk : bot.skills_config.SKILLS TARGET_SKILL_ID = some sk) :
    (strIn "skill" t = true →
       on_turn bot s a =
         ([Event.sendActivity "Got it, connecting you to the skill...",
           Event.saveChanges true,
           Event.postActivity bot.bot_id sk
             bot.skills_config.SKILL_HOST_ENDPOINT a],
          PyResult.ok { activeSkillId := some "EchoSkillBot" })
       ∧ ((on_turn bot s a).1.filter isPost).length = 1)
    ∧ (strIn "skill" t = false →
       on_turn bot s a =
         ([Event.sendActivity "Me no nothin'. Say \"skill\" and I'll patch you through"],
          PyResult.ok s)) := by
  constructor
  · intro hkw
    have he : on_turn bot s a =
        ([Event.sendActivity "Got it, connecting you to the skill...",
          Event.saveChanges true,
          Event.postActivity bot.bot_id sk
            bot.skills_config.SKILL_HOST_ENDPOINT a],
         PyResult.ok { activeSkillId := some "EchoSkillBot" }) := by
      have hsk2 : bot.skills_config.SKILLS "EchoSkillBot" = some sk := hsk
      simp [on_turn, activity_handler_on_turn, on_message_activity, h1, h2, h3,
        hkw, hsk2, sendToSkill, ActivityTypes.message,
        ActivityTypes.end_of_conversation, TARGET_SKILL_ID]
    refine ⟨he, ?_⟩
    rw [he]
    simp [isPost]
  · intro hkw
    simp [on_turn, activity_handler_on_turn, on_message_activity, h1, h2, h3,
      hkw, ActivityTypes.message, ActivityTypes.end_of_conversation]

/-- C3 witness: the spec scenario message `"let's try the skill"` processed
while Idle by the concrete bot. -/
theorem C3_witness :
    on_turn sampleBot { activeSkillId := none } msgTrySkill =
      ([Event.sendActivity "Got it, connecting you to the skill...",
        Event.saveChanges true,
        Event.postActivity sampleBot.bot_id sampleSkill
          sampleBot.skills_config.SKILL_HOST_ENDPOINT msgTrySkill],
       PyResult.ok { activeSkillId := some "EchoSkillBot" }) ∧
    ((on_turn sampleBot { activeSkillId := none } msgTrySkill).1.filter
        isPost).length = 1 :=
  (C3_message_while_idle sampleBot { activeSkillId := none } msgTrySkill
      "let's try the skill" sampleSkill rfl rfl rfl (by decide)).1 (by decide)

/-- C5: the per-conversation state machine. EndOfConversation always lands
in Idle; any non-EndOfConversation activity while the skill flag is truthy
leaves the state unchanged (SkillActive stays SkillActive); while Idle, a
message moves to SkillActive exactly on a keyword match and otherwise
changes nothing; while Idle, non-message non-EndOfConversation activities
change nothing. -/
theorem C5_state_machine (bot : RootBot) (s s' : ConvState) (a : Activity)
    (hok : (on_turn bot s a).2 = PyResult.ok s') :
    (a.type = ActivityTypes.end_of_conversation → s'.activeSkillId = none)
    ∧ (a.type ≠ ActivityTypes.end_of_conversation →
         pyTruthy s.activeSkillId = true → s' = s)
    ∧ (s.activeSkillId = none → a.type = ActivityTypes.message →
         ∀ t, a.text = some t →
           (strIn "skill" t = true → s'.activeSkillId = some "EchoSkillBot")
           ∧ (strIn "skill" t = false → s' = s))
    ∧ (s.activeSkillId = none → a.type ≠ ActivityTypes.message →
         a.type ≠ ActivityTypes.end_of_conversation → s' = s) := by
  refine ⟨?_, ?_, ?_, ?_⟩
  · intro h
    rw [on_turn_eoc_eq bot s a h] at hok
    simp [on_end_of_conversation_activity] at hok
    rw [← hok]
  · intro hty htr
    cases hid : s.activeSkillId with
    | none => rw [hid] at htr; simp [pyTruthy] at htr
    | some id =>
      rw [hid] at htr
      simp [pyTruthy] at htr
      cases hsk : bot.skills_config.SKILLS id with
      | none =>
        rw [on_turn] at hok
        simp [hty, hid, htr, hsk] at hok
      | some sk =>
        rw [on_turn_forward_eq bot s a id sk hty hid htr hsk] at hok
        simp at hok
        exact hok.symm
  · intro hid hmsg t htext
    rw [on_turn] at hok
    simp [hid, hmsg, ActivityTypes.message, ActivityTypes.end_of_conversation,
      activity_handler_on_turn, on_message_activity, htext] at hok
    constructor
    · intro hkw
      rw [eq_comm] at hok
      simp [hkw] at hok
      cases hsk : bot.skills_config.SKILLS TARGET_SKILL_ID with
      | none => rw [hsk] at hok; simp at hok
      | some sk =>
        rw [hsk] at hok
        simp at hok
        rw [hok]
        rfl
    · intro hkw
      rw [eq_comm] at hok
      simp [hkw] at hok
      exact hok
  · intro hid hmsg hty
    rw [on_turn] at hok
    simp [hid, hty] at hok
    unfold activity_handler_on_turn at hok
    simp [hmsg, hty] at hok
    split at hok
    · split at hok
      · simp at hok
        exact hok.symm
      · simp [on_members_added_activity] at hok
        exact hok.symm
    · simp at hok
      exact hok.symm

/-- C5 witness: the state-machine theorem applied to the keyword message
processed while Idle by the concrete bot, landing in SkillActive. -/
theorem C5_witness :
    (strIn "skill" "let's try the skill" = true →
       ({ activeSkillId := some "EchoSkillBot" } : ConvState).activeSkillId =
         some "EchoSkillBot")
    ∧ (strIn "skill" "let's try the skill" = false →
       ({ activeSkillId := some "EchoSkillBot" } : ConvState) =
         { activeSkillId := none }) :=
  (C5_state_machine sampleBot { activeSkillId := none }
      { activeSkillId := some "EchoSkillBot" } msgTrySkill (by decide)).2.2.1
    rfl rfl "let's try the skill" rfl

/-- C6: an EndOfConversation turn always completes with `activeSkillId`
absent, whatever the prior state — so clearing an already-absent flag is the
same no-op turn — and processing the same EndOfConversation again from the
resulting (Idle) state yields the identical turn outcome. -/
theorem C6_eoc_clears_and_idempotent (bot : RootBot) (s : ConvState)
    (a : Activity) (h : a.type = ActivityTypes.end_of_conversation) :
    (on_turn bot s a).2 = PyResult.ok { activeSkillId := none }
    ∧ on_turn bot { activeSkillId := none } a = on_turn bot s a := by
  constructor
  · rw [on_turn_eoc_eq bot s a h]
    rfl
  · rw [on_turn_eoc_eq bot s a h,
      on_turn_eoc_eq bot { activeSkillId := none } a h]

/-- C6 witness: the clearing/idempotence theorem at a concrete
EndOfConversation received while `EchoSkillBot` is active. -/
theorem C6_witness :
    (on_turn sampleBot { activeSkillId := some "EchoSkillBot" } eocBare).2 =
      PyResult.ok { activeSkillId := none } ∧
    on_turn sampleBot { activeSkillId := none } eocBare =
      on_turn sampleBot { activeSkillId := some "EchoSkillBot" } eocBare :=
  C6_eoc_clears_and_idempotent sampleBot
    { activeSkillId := some "EchoSkillBot" } eocBare rfl

/-- C10: in every reachable conversation state the stored skill id is either
absent or the constant `EchoSkillBot`; no turn ever stores any other id. -/
theorem C10_reachable_skill_id (bot : RootBot) (s : ConvState)
    (h : Reachable bot s) :
    s.activeSkillId = none ∨ s.activeSkillId = some "EchoSkillBot" := by
  induction h with
  | init => exact Or.inl rfl
  | step s s' a hr hok ih =>
    rcases on_turn_state_cases bot s s' a hok with h1 | h1 | h1
    · rw [h1]
      exact ih
    · rw [h1]
      exact Or.inl rfl
    · rw [h1]
      exact Or.inr rfl

/-- C10 witness: the invariant at the initial reachable state. -/
theorem C10_witness :
    ({ activeSkillId := none } : ConvState).activeSkillId = none ∨
    ({ activeSkillId := none } : ConvState).activeSkillId =
      some "EchoSkillBot" :=
  C10_reachable_skill_id sampleBot { activeSkillId := none } Reachable.init
